import Mathlib

/-
  Shallow embedding of `src/packages/lib-roblox/src/datatypes/types/udim2.rs`
  from the lune-cross-compilation repository.

  Modelling conventions:
  * Rust `f32` values are modelled as exact rationals (`ℚ`).  All floating
    arithmetic in the embedded operations is therefore exact; constants such as
    `i32::MIN as f32` / `i32::MAX as f32` are modelled by the exact integers
    -2147483648 and 2147483647.
  * Rust `i32` values are modelled as `ℤ`; where the source can overflow
    (negation, addition) the result is reduced with an explicit wrap into
    [-2^31, 2^31), matching twos-complement wraparound, and `as i32` casts
    of rounded floats are modelled with the saturating behaviour of Rust casts.
  * `udim2.rs` is the authoritative source.  The sibling file `udim.rs` and the
    parent module (error types, conversion traits, the variant enum re-export)
    are part of the repository but are not under `src/`; definitions taken from
    them are marked `Modelled from the spec:` in their doc comments.
  * External collaborators (the `glam` vector-math crate, the `mlua` binding
    layer, the `rbx_dom_weak` variant type) are modelled at their documented
    interface behaviour, as the spec directs (black-box lerp, tuple
    argument-list conversion with nil padding, tagged union).
-/

namespace Lune

/-- One axis of a scale+pixel-offset pair (struct `UDim`, fields visible in
`udim2.rs`: `scale: f32`, `offset: i32`). -/
structure UDim where
  scale : ℚ
  offset : ℤ
deriving DecidableEq, Repr

/-- Two independent `UDim` axes (struct `UDim2` in `udim2.rs`). -/
structure UDim2 where
  x : UDim
  y : UDim
deriving DecidableEq, Repr

/-- Twos-complement wraparound of a mathematical integer into the `i32`
range [-2147483648, 2147483648). -/
def wrap32 (z : ℤ) : ℤ :=
  (z + 2147483648) % 4294967296 - 2147483648

/-- Whether an integer is in the representable `i32` range; stored `i32`
fields always satisfy this. -/
def int32Range (z : ℤ) : Prop :=
  -2147483648 ≤ z ∧ z < 2147483648

instance (z : ℤ) : Decidable (int32Range z) := by
  unfold int32Range; infer_instance

/-- Modelled from the spec: `udim.rs` (not under `src/`) derives `Default`
for `UDim`; defaults are the zero value. -/
instance : Inhabited UDim := ⟨⟨0, 0⟩⟩

/-- Modelled from the spec: `ops::Neg for UDim` lives in `udim.rs` (not under
`src/`); arithmetic is componentwise, with twos-complement wraparound on the
integer offset. -/
def UDim.neg (u : UDim) : UDim :=
  ⟨-u.scale, wrap32 (-u.offset)⟩

instance : Neg UDim := ⟨UDim.neg⟩

/-- Modelled from the spec: `ops::Add for UDim` lives in `udim.rs` (not under
`src/`); arithmetic is componentwise, with twos-complement wraparound on the
integer offset. -/
def UDim.add (a b : UDim) : UDim :=
  ⟨a.scale + b.scale, wrap32 (a.offset + b.offset)⟩

instance : Add UDim := ⟨UDim.add⟩

/-- `ops::Neg for UDim2` (udim2.rs lines 91-99): componentwise. -/
def UDim2.neg (v : UDim2) : UDim2 :=
  ⟨-v.x, -v.y⟩

instance : Neg UDim2 := ⟨UDim2.neg⟩

/-- `ops::Add for UDim2` (udim2.rs lines 101-109): componentwise. -/
def UDim2.add (a b : UDim2) : UDim2 :=
  ⟨a.x + b.x, a.y + b.y⟩

instance : Add UDim2 := ⟨UDim2.add⟩

/-- The all-zero `UDim2`. -/
def udim2Zero : UDim2 := ⟨⟨0, 0⟩, ⟨0, 0⟩⟩

/-! ## The external tagged representation -/

/-- The `rbx_dom_weak` UDim payload at the conversion boundary. -/
structure RbxUDim where
  scale : ℚ
  offset : ℤ
deriving DecidableEq, Repr

/-- The `rbx_dom_weak` UDim2 payload at the conversion boundary. -/
structure RbxUDim2 where
  x : RbxUDim
  y : RbxUDim
deriving DecidableEq, Repr

/-- Modelled from the spec: `From<&RbxUDim> for UDim` lives in `udim.rs` (not
under `src/`); the tagged representation carries enough information to
reconstruct any datatype losslessly, so the conversion copies both fields. -/
def UDim.ofRbx (v : RbxUDim) : UDim := ⟨v.scale, v.offset⟩

/-- Modelled from the spec: `From<&UDim> for RbxUDim` lives in `udim.rs` (not
under `src/`); field-by-field copy, lossless. -/
def UDim.toRbx (v : UDim) : RbxUDim := ⟨v.scale, v.offset⟩

/-- `From<&RbxUDim2> for UDim2` (udim2.rs lines 158-165): componentwise. -/
def UDim2.ofRbx (v : RbxUDim2) : UDim2 := ⟨UDim.ofRbx v.x, UDim.ofRbx v.y⟩

/-- `From<&UDim2> for RbxUDim2` (udim2.rs lines 167-174): componentwise. -/
def UDim2.toRbx (v : UDim2) : RbxUDim2 := ⟨UDim.toRbx v.x, UDim.toRbx v.y⟩

/-- Modelled from the spec: the variant-type discriminant (re-exported through
the parent datatypes module, not under `src/`): one value per datatype of the
layer, plus an escape for types unknown to the layer. -/
inductive RbxVariantType where
  | brickColor
  | color3
  | colorSequence
  | colorSequenceKeypoint
  | uDim
  | uDim2
  | vector2
  | vector2int16
  | vector3
  | vector3int16
  | unknown
deriving DecidableEq, Repr

/-- Modelled from the spec: the name of a discriminant, as used in conversion
error payloads. -/
def RbxVariantType.variant_name : RbxVariantType → String
  | .brickColor => "BrickColor"
  | .color3 => "Color3"
  | .colorSequence => "ColorSequence"
  | .colorSequenceKeypoint => "ColorSequenceKeypoint"
  | .uDim => "UDim"
  | .uDim2 => "UDim2"
  | .vector2 => "Vector2"
  | .vector2int16 => "Vector2int16"
  | .vector3 => "Vector3"
  | .vector3int16 => "Vector3int16"
  | .unknown => "Unknown"

/-- Modelled from the spec: the closed tagged union (`RbxVariant`), one case
per datatype plus an escape case.  Only the cases whose payloads the claims
inspect carry data. -/
inductive RbxVariant where
  | brickColor
  | color3
  | colorSequence
  | colorSequenceKeypoint
  | uDim (u : RbxUDim)
  | uDim2 (u : RbxUDim2)
  | vector2
  | vector2int16
  | vector3
  | vector3int16
  | unknown
deriving DecidableEq, Repr

/-- Modelled from the spec: the discriminant of a tagged value. -/
def RbxVariant.variantType : RbxVariant → RbxVariantType
  | .brickColor => .brickColor
  | .color3 => .color3
  | .colorSequence => .colorSequence
  | .colorSequenceKeypoint => .colorSequenceKeypoint
  | .uDim _ => .uDim
  | .uDim2 _ => .uDim2
  | .vector2 => .vector2
  | .vector2int16 => .vector2int16
  | .vector3 => .vector3
  | .vector3int16 => .vector3int16
  | .unknown => .unknown

/-- Modelled from the spec: the name of the discriminant of a tagged value. -/
def RbxVariant.variant_name (v : RbxVariant) : String :=
  v.variantType.variant_name

/-- Modelled from the spec: the conversion error type of the parent datatypes
module (not under `src/`).  `fromRbxVariant` is the MismatchedSource error of
the spec, `toRbxVariant` the UnsupportedTarget error; field order follows the
source construction sites in `udim2.rs` (`from`, `to`, `detail` and
`to`, `from`, `detail` respectively). -/
inductive DatatypeConversionError where
  | fromRbxVariant (fromName toName : String) (detail : Option String)
  | toRbxVariant (toName fromName : String) (detail : Option String)
deriving DecidableEq, Repr

/-- `FromRbxVariant for UDim2` (udim2.rs lines 176-188): succeeds on the
`UDim2` case, otherwise a `FromRbxVariant` error carrying the name of the
actual discriminant and the name of this datatype. -/
def UDim2.from_rbx_variant (variant : RbxVariant) : Except DatatypeConversionError UDim2 :=
  match variant with
  | .uDim2 u => .ok (UDim2.ofRbx u)
  | v => .error (.fromRbxVariant (v.variant_name) ("UDim2") none)

/-- `ToRbxVariant for UDim2` (udim2.rs lines 190-205): succeeds for no desired
type or the `UDim2` desired type, otherwise a `ToRbxVariant` error carrying
the name of the requested discriminant and the name of this datatype. -/
def UDim2.to_rbx_variant (v : UDim2) (desired_type : Option RbxVariantType) :
    Except DatatypeConversionError RbxVariant :=
  if desired_type = none ∨ desired_type = some RbxVariantType.uDim2 then
    .ok (.uDim2 (UDim2.toRbx v))
  else
    .error (.toRbxVariant ((desired_type.map RbxVariantType.variant_name).getD ("?"))
      ("UDim2") none)

/-! ## The host-runtime (Lua) boundary

Modelled at the documented interface behaviour of the `mlua` binding layer:
Lua values are dynamically typed (Luau numbers are all floating, modelled as
exact rationals); a tuple extracted with `from_lua_multi` pops one value per
component, padding missing trailing arguments with nil and ignoring extras;
`Option<T>` accepts nil as `None`; numeric extraction coerces numeric strings;
integer extraction requires an integral value in range. -/

/-- A dynamically typed Lua value, restricted to the cases the UDim2
constructors can observe. -/
inductive LuaValue where
  | nil
  | boolean (b : Bool)
  | number (n : ℚ)
  | str (s : String)
  | userdataUDim (u : UDim)
  | userdataUDim2 (u : UDim2)
  | userdataOther
deriving DecidableEq, Repr

/-- The error type surfaced to the host runtime: the explicit
`LuaError::RuntimeError` of the source, plus the conversion failures raised
internally by argument extraction. -/
inductive LuaError where
  | runtimeError (message : String)
  | fromLuaConversionError (fromTy toTy : String)
deriving DecidableEq, Repr

/-- Value of a decimal digit list read in base 10. -/
def digitsToNat (l : List Char) : ℕ :=
  l.foldl (fun a c => 10 * a + (c.toNat - 48)) 0

/-- Lua coercion of a string to a number, for plain decimal literals with an
optional sign and an optional fractional part (the Lua `tonumber` lexical
convention, as `mlua` applies it when a string is supplied where a number is
expected). -/
def luaStringToNumber (s : String) : Option ℚ :=
  let withSign : ℚ × List Char :=
    match s.data with
    | '-' :: r => (-1, r)
    | '+' :: r => (1, r)
    | r => (1, r)
  let sign := withSign.1
  let rest := withSign.2
  let intPart := rest.takeWhile Char.isDigit
  let after := rest.dropWhile Char.isDigit
  match after with
  | [] =>
    if intPart.isEmpty then none
    else some (sign * (digitsToNat intPart : ℚ))
  | '.' :: frac =>
    if frac.all Char.isDigit && !(intPart.isEmpty && frac.isEmpty) then
      some (sign * ((digitsToNat intPart : ℚ)
        + (digitsToNat frac : ℚ) / (10 : ℚ) ^ frac.length))
    else none
  | _ => none

/-- `mlua` extraction of an `f32` argument: a number, or a string coercible to
a number; anything else is a conversion error. -/
def f32FromLua (v : LuaValue) : Except LuaError ℚ :=
  match v with
  | .number n => .ok n
  | .str s =>
    match luaStringToNumber s with
    | some n => .ok n
    | none => .error (.fromLuaConversionError ("string") ("f32"))
  | _ => .error (.fromLuaConversionError ("value") ("f32"))

/-- `mlua` extraction of an `i32` argument: the value must coerce to a number
that is integral and in `i32` range. -/
def i32FromLua (v : LuaValue) : Except LuaError ℤ :=
  match f32FromLua v with
  | .error _ => .error (.fromLuaConversionError ("value") ("i32"))
  | .ok q =>
    if q.den = 1 ∧ int32Range q.num then .ok q.num
    else .error (.fromLuaConversionError ("number") ("i32"))

/-- `mlua` extraction of a `UDim` userdata argument. -/
def udimFromLua (v : LuaValue) : Except LuaError UDim :=
  match v with
  | .userdataUDim u => .ok u
  | _ => .error (.fromLuaConversionError ("value") ("UDim"))

/-- `mlua` extraction of an `Option<T>` argument: nil is `None`, anything else
must extract as `T`. -/
def optionFromLua {α : Type} (f : LuaValue → Except LuaError α) (v : LuaValue) :
    Except LuaError (Option α) :=
  match v with
  | .nil => .ok none
  | w => (f w).map some

/-- The argument at position `i` of a Lua call, nil when absent (`mlua` pads
missing trailing tuple components with nil). -/
def luaArg (args : List LuaValue) (i : ℕ) : LuaValue :=
  args.getD i .nil

/-- `from_lua_multi` for the shape `ArgsUDims = (Option<UDim>, Option<UDim>)`
of `udim2.rs` line 53. -/
def argsUDimsFromLuaMulti (args : List LuaValue) :
    Except LuaError (Option UDim × Option UDim) :=
  match optionFromLua udimFromLua (luaArg args 0) with
  | .error e => .error e
  | .ok x =>
    match optionFromLua udimFromLua (luaArg args 1) with
    | .error e => .error e
    | .ok y => .ok (x, y)

/-- `from_lua_multi` for the shape
`ArgsNums = (Option<f32>, Option<i32>, Option<f32>, Option<i32>)` of
`udim2.rs` line 54. -/
def argsNumsFromLuaMulti (args : List LuaValue) :
    Except LuaError (Option ℚ × Option ℤ × Option ℚ × Option ℤ) :=
  match optionFromLua f32FromLua (luaArg args 0) with
  | .error e => .error e
  | .ok sx =>
    match optionFromLua i32FromLua (luaArg args 1) with
    | .error e => .error e
    | .ok ox =>
      match optionFromLua f32FromLua (luaArg args 2) with
      | .error e => .error e
      | .ok sy =>
        match optionFromLua i32FromLua (luaArg args 3) with
        | .error e => .error e
        | .ok oy => .ok (sx, ox, sy, oy)

/-- The message of the constructor fallback error (udim2.rs line 77). -/
def invalidCtorMsg : String := "Invalid arguments to constructor"

/-- The `UDim2.new` constructor (udim2.rs lines 55-81): try the two-UDim shape
first, then the four-numbers shape, else a `RuntimeError`. -/
def udim2_new (args : List LuaValue) : Except LuaError UDim2 :=
  match argsUDimsFromLuaMulti args with
  | .ok (x, y) => .ok ⟨x.getD default, y.getD default⟩
  | .error _ =>
    match argsNumsFromLuaMulti args with
    | .ok (sx, ox, sy, oy) =>
      .ok ⟨⟨sx.getD 0, ox.getD 0⟩, ⟨sy.getD 0, oy.getD 0⟩⟩
    | .error _ => .error (.runtimeError invalidCtorMsg)

/-- The `UDim2.fromScale` factory (udim2.rs lines 23-37): the typed closure
takes two optional `f32`, offsets are hard-coded zero. -/
def udim2_fromScale (x y : Option ℚ) : UDim2 :=
  ⟨⟨x.getD 0, 0⟩, ⟨y.getD 0, 0⟩⟩

/-- The `UDim2.fromOffset` factory (udim2.rs lines 38-52): the typed closure
takes two optional `i32`, scales are hard-coded zero. -/
def udim2_fromOffset (x y : Option ℤ) : UDim2 :=
  ⟨⟨0, x.getD 0⟩, ⟨0, y.getD 0⟩⟩

/-! ## Lerp -/

/-- The `glam` 2D vector, at its interface boundary. -/
structure Vec2 where
  x : ℚ
  y : ℚ
deriving DecidableEq, Repr

/-- The `glam` linear interpolation, per its documented behaviour
`self + ((rhs - self) * s)`, componentwise. -/
def Vec2.lerp (a b : Vec2) (s : ℚ) : Vec2 :=
  ⟨a.x + (b.x - a.x) * s, a.y + (b.y - a.y) * s⟩

/-- Rust `f32::round`: round to nearest, ties away from zero. -/
def ratRound (q : ℚ) : ℤ :=
  if 0 ≤ q then ⌊q + 1 / 2⌋ else ⌈q - 1 / 2⌉

/-- Rust `f32::clamp(lo, hi)`: `min (max x lo) hi`. -/
def ratClamp (q lo hi : ℚ) : ℚ :=
  min (max q lo) hi

/-- Rust `as i32` on an already-rounded float value: saturating cast. -/
def i32SatCast (z : ℤ) : ℤ :=
  max (-2147483648) (min 2147483647 z)

/-- The `Lerp` method (udim2.rs lines 131-148): each axis is packed into a
`glam` vector as (scale, offset-as-float), interpolated, and the offset
component is clamped to the `i32` bounds, rounded, and cast back.  The cast
constants `i32::MIN as f32` / `i32::MAX as f32` are the exact `i32` bounds in
this exact-rational model. -/
def UDim2.Lerp (this rhs : UDim2) (alpha : ℚ) : UDim2 :=
  let this_vec_x : Vec2 := ⟨this.x.scale, (this.x.offset : ℚ)⟩
  let this_vec_y : Vec2 := ⟨this.y.scale, (this.y.offset : ℚ)⟩
  let rhs_vec_x : Vec2 := ⟨rhs.x.scale, (rhs.x.offset : ℚ)⟩
  let rhs_vec_y : Vec2 := ⟨rhs.y.scale, (rhs.y.offset : ℚ)⟩
  let result_x := this_vec_x.lerp rhs_vec_x alpha
  let result_y := this_vec_y.lerp rhs_vec_y alpha
  ⟨⟨result_x.x, i32SatCast (ratRound (ratClamp result_x.y (-2147483648) 2147483647))⟩,
   ⟨result_y.x, i32SatCast (ratRound (ratClamp result_y.y (-2147483648) 2147483647))⟩⟩

/-- Whether both offsets of a `UDim2` are in `i32` range, as every value built
from actual `i32` fields is. -/
def UDim2.validOffsets (v : UDim2) : Prop :=
  int32Range v.x.offset ∧ int32Range v.y.offset

instance (v : UDim2) : Decidable (v.validOffsets) := by
  unfold UDim2.validOffsets; infer_instance

/-! ## Claims C1-C3: the conversion contract -/

/-- C1: for every UDim2 value `v`, converting `v` to the tagged representation
with no desired discriminant and then back succeeds and returns a value
structurally equal to `v`. -/
theorem c1_udim2_variant_roundtrip (v : UDim2) :
    (UDim2.to_rbx_variant v none).bind UDim2.from_rbx_variant = .ok v := rfl

/-- C2: `UDim2.from_rbx_variant` succeeds exactly on tagged values with the
UDim2 discriminant; on every other tagged value it fails with the
MismatchedSource-style error carrying the name of the actual discriminant and
the name "UDim2". -/
theorem c2_from_variant_discriminants :
    (∀ u : RbxUDim2, UDim2.from_rbx_variant (.uDim2 u) = .ok (UDim2.ofRbx u)) ∧
    (∀ v : RbxVariant, (∀ u : RbxUDim2, v ≠ .uDim2 u) →
      UDim2.from_rbx_variant v
        = .error (.fromRbxVariant (v.variant_name) ("UDim2") none)) := by
  refine ⟨fun u => rfl, fun v h => ?_⟩
  cases v <;> first
    | rfl
    | exact absurd rfl (h _)

/-- C2 witness: a concrete non-UDim2 tagged value is rejected with the
expected error payload. -/
theorem c2_from_variant_discriminants_witness :
    UDim2.from_rbx_variant .color3
      = .error (.fromRbxVariant ("Color3") ("UDim2") none) :=
  c2_from_variant_discriminants.2 .color3 (fun _ h => RbxVariant.noConfusion h)

/-- C3: `UDim2.to_rbx_variant` succeeds, producing a UDim2-tagged value built
from the receiver itself (no cross-datatype coercion), exactly when the
desired discriminant is absent or is UDim2; for any other discriminant it
fails with the UnsupportedTarget-style error carrying the name of the
requested discriminant and the name "UDim2". -/
theorem c3_to_variant_discriminants (v : UDim2) (d : Option RbxVariantType) :
    ((d = none ∨ d = some RbxVariantType.uDim2) →
      UDim2.to_rbx_variant v d = .ok (.uDim2 (UDim2.toRbx v))) ∧
    (∀ t : RbxVariantType, d = some t → t ≠ RbxVariantType.uDim2 →
      UDim2.to_rbx_variant v d
        = .error (.toRbxVariant (t.variant_name) ("UDim2") none)) ∧
    (∀ w : RbxVariant, UDim2.to_rbx_variant v d = .ok w →
      w = .uDim2 (UDim2.toRbx v)) := by
  refine ⟨fun h => ?_, fun t hd ht => ?_, fun w hw => ?_⟩
  · unfold UDim2.to_rbx_variant
    rw [if_pos h]
  · subst hd
    unfold UDim2.to_rbx_variant
    rw [if_neg]
    · rfl
    · rintro (h | h)
      · exact Option.noConfusion h
      · exact ht (Option.some.inj h)
  · unfold UDim2.to_rbx_variant at hw
    by_cases h : d = none ∨ d = some RbxVariantType.uDim2
    · rw [if_pos h] at hw
      exact (Except.ok.inj hw).symm
    · rw [if_neg h] at hw
      exact Except.noConfusion hw

/-- C3 witness: at a concrete value, coercion to `Vector2` is rejected with
the expected payload, and conversion with no desired type succeeds. -/
theorem c3_to_variant_discriminants_witness :
    UDim2.to_rbx_variant ⟨⟨1, 2⟩, ⟨3, 4⟩⟩ (some RbxVariantType.vector2)
      = .error (.toRbxVariant ("Vector2") ("UDim2") none) :=
  (c3_to_variant_discriminants ⟨⟨1, 2⟩, ⟨3, 4⟩⟩ (some RbxVariantType.vector2)).2.1
    RbxVariantType.vector2 rfl (by decide)

/-! ## Helper lemmas -/

instance {ε α : Type} [DecidableEq ε] [DecidableEq α] : DecidableEq (Except ε α) := fun a b =>
  match a, b with
  | .ok x, .ok y =>
    if h : x = y then .isTrue (by rw [h]) else .isFalse (fun hc => h (Except.ok.inj hc))
  | .error x, .error y =>
    if h : x = y then .isTrue (by rw [h]) else .isFalse (fun hc => h (Except.error.inj hc))
  | .ok _, .error _ => .isFalse Except.noConfusion
  | .error _, .ok _ => .isFalse Except.noConfusion

theorem udim_add_def (a b : UDim) :
    a + b = ⟨a.scale + b.scale, wrap32 (a.offset + b.offset)⟩ := rfl

theorem udim_neg_def (u : UDim) : -u = ⟨-u.scale, wrap32 (-u.offset)⟩ := rfl

theorem udim2_add_def (a b : UDim2) : a + b = ⟨a.x + b.x, a.y + b.y⟩ := rfl

theorem udim2_neg_def (v : UDim2) : -v = ⟨-v.x, -v.y⟩ := rfl

theorem i32FromLua_intCast (n : ℤ) (h : int32Range n) :
    i32FromLua (.number (n : ℚ)) = .ok n := by
  have hden : ((n : ℚ)).den = 1 := Rat.den_intCast n
  have hnum : ((n : ℚ)).num = n := Rat.num_intCast n
  simp only [i32FromLua, f32FromLua]
  rw [if_pos ⟨hden, hnum ▸ h⟩, hnum]

theorem udim2_new_four_nums (sx sy : ℚ) (ox oy : ℤ)
    (hox : int32Range ox) (hoy : int32Range oy) :
    udim2_new [.number sx, .number (ox : ℚ), .number sy, .number (oy : ℚ)]
      = .ok ⟨⟨sx, ox⟩, ⟨sy, oy⟩⟩ := by
  have hbad : argsUDimsFromLuaMulti
      [.number sx, .number (ox : ℚ), .number sy, .number (oy : ℚ)]
      = .error (.fromLuaConversionError ("value") ("UDim")) := rfl
  have hox2 : optionFromLua i32FromLua
      (luaArg [.number sx, .number (ox : ℚ), .number sy, .number (oy : ℚ)] 1)
      = .ok (some ox) := by
    show (i32FromLua (.number (ox : ℚ))).map some = _
    rw [i32FromLua_intCast ox hox]
    rfl
  have hoy2 : optionFromLua i32FromLua
      (luaArg [.number sx, .number (ox : ℚ), .number sy, .number (oy : ℚ)] 3)
      = .ok (some oy) := by
    show (i32FromLua (.number (oy : ℚ))).map some = _
    rw [i32FromLua_intCast oy hoy]
    rfl
  have hnums : argsNumsFromLuaMulti
      [.number sx, .number (ox : ℚ), .number sy, .number (oy : ℚ)]
      = .ok (some sx, some ox, some sy, some oy) := by
    unfold argsNumsFromLuaMulti
    rw [show optionFromLua f32FromLua
        (luaArg [.number sx, .number (ox : ℚ), .number sy, .number (oy : ℚ)] 0)
        = Except.ok (some sx) from rfl,
      hox2,
      show optionFromLua f32FromLua
        (luaArg [.number sx, .number (ox : ℚ), .number sy, .number (oy : ℚ)] 2)
        = Except.ok (some sy) from rfl,
      hoy2]
  unfold udim2_new
  rw [hbad, hnums]
  rfl

theorem ratRound_intCast (n : ℤ) : ratRound (n : ℚ) = n := by
  unfold ratRound
  split
  · rw [show ((n : ℚ) + 1 / 2) = (1 / 2 + (n : ℚ)) from add_comm _ _,
      Int.floor_add_int]
    norm_num
  · rw [show ((n : ℚ) - 1 / 2) = (-(1 / 2) + (n : ℚ)) from by ring,
      Int.ceil_add_int]
    norm_num

theorem ratClamp_intCast (n : ℤ) (h : int32Range n) :
    ratClamp (n : ℚ) (-2147483648) 2147483647 = (n : ℚ) := by
  obtain ⟨hlo, hhi⟩ := h
  have hhi2 : n ≤ 2147483647 := by omega
  unfold ratClamp
  rw [max_eq_left (by exact_mod_cast hlo), min_eq_left (by exact_mod_cast hhi2)]

theorem i32SatCast_intRange (n : ℤ) (h : int32Range n) : i32SatCast n = n := by
  unfold i32SatCast int32Range at *
  omega

/-! ## Claims C4-C6: the `new` constructor -/

/-- C4: `UDim2.new` with zero arguments gives the all-zero value; with two
UDim arguments it uses them as the axes; with four numeric arguments
(scaleX, offsetX, scaleY, offsetY) it builds the identical value to the
corresponding two-UDim call; and with a number followed by a non-numeric
string it fails with the invalid-constructor-arguments runtime error. -/
theorem c4_new_overloads (a b : UDim) (sx sy : ℚ) (ox oy : ℤ)
    (hox : int32Range ox) (hoy : int32Range oy) :
    udim2_new [] = .ok udim2Zero ∧
    udim2_new [.userdataUDim a, .userdataUDim b] = .ok ⟨a, b⟩ ∧
    udim2_new [.number sx, .number (ox : ℚ), .number sy, .number (oy : ℚ)]
      = udim2_new [.userdataUDim ⟨sx, ox⟩, .userdataUDim ⟨sy, oy⟩] ∧
    udim2_new [.number sx, .str ("x")] = .error (.runtimeError invalidCtorMsg) := by
  refine ⟨rfl, rfl, ?_, rfl⟩
  rw [udim2_new_four_nums sx sy ox oy hox hoy]
  rfl

/-- C4 witness: the overload equations at concrete arguments. -/
theorem c4_new_overloads_witness :
    int32Range 10 ∧
    udim2_new [.number (1 / 2), .number ((10 : ℤ) : ℚ), .number (1 / 4),
        .number ((5 : ℤ) : ℚ)]
      = udim2_new [.userdataUDim ⟨1 / 2, 10⟩, .userdataUDim ⟨1 / 4, 5⟩] :=
  ⟨by decide,
    (c4_new_overloads ⟨1 / 2, 10⟩ ⟨1 / 4, 5⟩ (1 / 2) (1 / 4) 10 5
      (by decide) (by decide)).2.2.1⟩

/-- C5 counterexample: a call to `UDim2.new` with exactly two numeric
arguments is not rejected; it satisfies the four-argument numeric shape with
the y-axis components defaulted, because the tuple extraction pads missing
trailing arguments with nil and the Option-typed components accept nil. -/
theorem c5_counterexample :
    udim2_new [.number (1 / 2), .number ((10 : ℤ) : ℚ)] = .ok ⟨⟨1 / 2, 10⟩, ⟨0, 0⟩⟩ := by
  have ho2 : optionFromLua i32FromLua
      (luaArg [.number (1 / 2), .number ((10 : ℤ) : ℚ)] 1) = .ok (some 10) := by
    show (i32FromLua (.number ((10 : ℤ) : ℚ))).map some = _
    rw [i32FromLua_intCast 10 (by decide)]
    rfl
  have hnums : argsNumsFromLuaMulti [.number (1 / 2), .number ((10 : ℤ) : ℚ)]
      = .ok (some (1 / 2), some 10, none, none) := by
    unfold argsNumsFromLuaMulti
    rw [show optionFromLua f32FromLua
        (luaArg [.number (1 / 2), .number ((10 : ℤ) : ℚ)] 0)
        = Except.ok (some (1 / 2)) from rfl,
      ho2,
      show optionFromLua f32FromLua
        (luaArg [.number (1 / 2), .number ((10 : ℤ) : ℚ)] 2)
        = Except.ok none from rfl,
      show optionFromLua i32FromLua
        (luaArg [.number (1 / 2), .number ((10 : ℤ) : ℚ)] 3)
        = Except.ok none from rfl]
  unfold udim2_new
  rw [show argsUDimsFromLuaMulti [.number (1 / 2), .number ((10 : ℤ) : ℚ)]
      = Except.error (.fromLuaConversionError ("value") ("UDim")) from rfl,
    hnums]
  rfl

/-- C5 (amended): a `UDim2.new` call supplying exactly two numeric arguments
(a scale and an in-range integral offset) satisfies the four-argument numeric
shape with the remaining two components defaulting to zero, and is accepted:
shape matching is not total-consumption, missing trailing arguments are padded
with nil and consumed as defaults. -/
theorem c5_two_nums_accepted (s : ℚ) (o : ℤ) (ho : int32Range o) :
    udim2_new [.number s, .number (o : ℚ)] = .ok ⟨⟨s, o⟩, ⟨0, 0⟩⟩ := by
  have hbad : argsUDimsFromLuaMulti [.number s, .number (o : ℚ)]
      = .error (.fromLuaConversionError ("value") ("UDim")) := rfl
  have ho2 : optionFromLua i32FromLua (luaArg [.number s, .number (o : ℚ)] 1)
      = .ok (some o) := by
    show (i32FromLua (.number (o : ℚ))).map some = _
    rw [i32FromLua_intCast o ho]
    rfl
  have hnums : argsNumsFromLuaMulti [.number s, .number (o : ℚ)]
      = .ok (some s, some o, none, none) := by
    unfold argsNumsFromLuaMulti
    rw [show optionFromLua f32FromLua (luaArg [.number s, .number (o : ℚ)] 0)
        = Except.ok (some s) from rfl,
      ho2,
      show optionFromLua f32FromLua (luaArg [.number s, .number (o : ℚ)] 2)
        = Except.ok none from rfl,
      show optionFromLua i32FromLua (luaArg [.number s, .number (o : ℚ)] 3)
        = Except.ok none from rfl]
  unfold udim2_new
  rw [hbad, hnums]
  rfl

/-- C5 (amended) witness: the two-argument call at concrete values. -/
theorem c5_two_nums_accepted_witness :
    int32Range 10 ∧
    udim2_new [.number (1 / 2), .number ((10 : ℤ) : ℚ)] = .ok ⟨⟨1 / 2, 10⟩, ⟨0, 0⟩⟩ :=
  ⟨by decide, c5_two_nums_accepted (1 / 2) 10 (by decide)⟩

/-- C6 counterexample: when no shape matches, the error message is the fixed
string "Invalid arguments to constructor"; it does not name the constructor
(neither the method name nor the datatype name occurs in it). -/
theorem c6_counterexample :
    udim2_new [.number (1 / 2), .str ("x")]
      = .error (.runtimeError ("Invalid arguments to constructor")) ∧
    ¬ List.IsInfix ("new").data ("Invalid arguments to constructor").data ∧
    ¬ List.IsInfix ("UDim2").data ("Invalid arguments to constructor").data :=
  ⟨rfl, by decide, by decide⟩

/-- C6 (amended): when no constructor shape matches, `UDim2.new` fails with a
runtime error whose message is exactly "Invalid arguments to constructor" —
it states that the arguments were invalid for a constructor, but names
neither the specific constructor nor the attempted shapes. -/
theorem c6_error_message (args : List LuaValue) (e : LuaError)
    (h : udim2_new args = .error e) :
    e = .runtimeError invalidCtorMsg := by
  unfold udim2_new at h
  split at h
  · exact Except.noConfusion h
  · split at h
    · exact Except.noConfusion h
    · exact (Except.error.inj h).symm

/-- C6 (amended) witness: a concrete unmatched call produces exactly the fixed
message. -/
theorem c6_error_message_witness :
    udim2_new [.boolean true] = .error (.runtimeError invalidCtorMsg) ∧
    LuaError.runtimeError invalidCtorMsg = .runtimeError invalidCtorMsg :=
  ⟨rfl, c6_error_message [.boolean true] (.runtimeError invalidCtorMsg) rfl⟩

/-! ## Claims C7-C8: Lerp -/

/-- C7: for all UDim2 values `a`, `b` (offsets in `i32` range, as stored
fields always are), `Lerp a b 0 = a` and `Lerp a b 1 = b`. -/
theorem c7_lerp_boundary (a b : UDim2) (ha : a.validOffsets) (hb : b.validOffsets) :
    UDim2.Lerp a b 0 = a ∧ UDim2.Lerp a b 1 = b := by
  obtain ⟨⟨sax, oax⟩, ⟨say, oay⟩⟩ := a
  obtain ⟨⟨sbx, obx⟩, ⟨sby, oby⟩⟩ := b
  obtain ⟨hax, hay⟩ := ha
  obtain ⟨hbx, hby⟩ := hb
  have hax : int32Range oax := hax
  have hay : int32Range oay := hay
  have hbx : int32Range obx := hbx
  have hby : int32Range oby := hby
  dsimp only [UDim2.Lerp, Vec2.lerp]
  constructor
  · rw [show sax + (sbx - sax) * 0 = sax from by ring,
      show say + (sby - say) * 0 = say from by ring,
      show (oax : ℚ) + ((obx : ℚ) - (oax : ℚ)) * 0 = (oax : ℚ) from by ring,
      show (oay : ℚ) + ((oby : ℚ) - (oay : ℚ)) * 0 = (oay : ℚ) from by ring,
      ratClamp_intCast oax hax, ratClamp_intCast oay hay,
      ratRound_intCast, ratRound_intCast,
      i32SatCast_intRange oax hax, i32SatCast_intRange oay hay]
  · rw [show sax + (sbx - sax) * 1 = sbx from by ring,
      show say + (sby - say) * 1 = sby from by ring,
      show (oax : ℚ) + ((obx : ℚ) - (oax : ℚ)) * 1 = (obx : ℚ) from by ring,
      show (oay : ℚ) + ((oby : ℚ) - (oay : ℚ)) * 1 = (oby : ℚ) from by ring,
      ratClamp_intCast obx hbx, ratClamp_intCast oby hby,
      ratRound_intCast, ratRound_intCast,
      i32SatCast_intRange obx hbx, i32SatCast_intRange oby hby]

/-- C7 witness: the boundary equations at concrete values. -/
theorem c7_lerp_boundary_witness :
    UDim2.validOffsets ⟨⟨1 / 2, 10⟩, ⟨1 / 4, 5⟩⟩ ∧
    (UDim2.Lerp ⟨⟨1 / 2, 10⟩, ⟨1 / 4, 5⟩⟩ ⟨⟨1, 20⟩, ⟨0, -5⟩⟩ 0
        = ⟨⟨1 / 2, 10⟩, ⟨1 / 4, 5⟩⟩ ∧
      UDim2.Lerp ⟨⟨1 / 2, 10⟩, ⟨1 / 4, 5⟩⟩ ⟨⟨1, 20⟩, ⟨0, -5⟩⟩ 1
        = ⟨⟨1, 20⟩, ⟨0, -5⟩⟩) :=
  ⟨by decide,
    c7_lerp_boundary ⟨⟨1 / 2, 10⟩, ⟨1 / 4, 5⟩⟩ ⟨⟨1, 20⟩, ⟨0, -5⟩⟩
      (by decide) (by decide)⟩

/-- The offset policy stated by the claim, written from the words of the spec:
clamp the interpolated floating value to the representable int32 range first,
then round to nearest, then truncate to the integer type. -/
def specClampThenRound (q : ℚ) : ℤ :=
  i32SatCast (ratRound (ratClamp q (-2147483648) 2147483647))

/-- C8: each interpolated integer-offset value of `Lerp` is exactly the
clamp-before-round policy applied to the exact interpolated value of the
offset components: clamp to the int32 range first, round to nearest second,
truncate last. -/
theorem c8_clamp_before_round (a b : UDim2) (alpha : ℚ) :
    (UDim2.Lerp a b alpha).x.offset
      = specClampThenRound
          ((a.x.offset : ℚ) + ((b.x.offset : ℚ) - (a.x.offset : ℚ)) * alpha) ∧
    (UDim2.Lerp a b alpha).y.offset
      = specClampThenRound
          ((a.y.offset : ℚ) + ((b.y.offset : ℚ) - (a.y.offset : ℚ)) * alpha) :=
  ⟨rfl, rfl⟩

/-! ## Claim C9: additive identity -/

/-- C9: for every UDim2 value `v` (offsets in `i32` range, as stored fields
always are), `v + zero = v` and `v + (-v) = zero`, with the all-zero UDim2 as
zero and componentwise negation. -/
theorem c9_additive_identity (v : UDim2) (h : v.validOffsets) :
    v + udim2Zero = v ∧ v + (-v) = udim2Zero := by
  obtain ⟨⟨s1, o1⟩, ⟨s2, o2⟩⟩ := v
  obtain ⟨h1, h2⟩ := h
  have h1 : -2147483648 ≤ o1 ∧ o1 < 2147483648 := h1
  have h2 : -2147483648 ≤ o2 ∧ o2 < 2147483648 := h2
  constructor
  · simp only [udim2_add_def, udim2_neg_def, udim_add_def, udim_neg_def, udim2Zero,
      wrap32, UDim2.mk.injEq, UDim.mk.injEq]
    refine ⟨⟨by ring, by omega⟩, by ring, by omega⟩
  · simp only [udim2_add_def, udim2_neg_def, udim_add_def, udim_neg_def, udim2Zero,
      wrap32, UDim2.mk.injEq, UDim.mk.injEq]
    refine ⟨⟨by ring, by omega⟩, by ring, by omega⟩

/-- C9 witness: the identity laws at a concrete value. -/
theorem c9_additive_identity_witness :
    UDim2.validOffsets ⟨⟨1 / 2, 10⟩, ⟨-1 / 4, -5⟩⟩ ∧
    (⟨⟨1 / 2, 10⟩, ⟨-1 / 4, -5⟩⟩ + udim2Zero = (⟨⟨1 / 2, 10⟩, ⟨-1 / 4, -5⟩⟩ : UDim2) ∧
      (⟨⟨1 / 2, 10⟩, ⟨-1 / 4, -5⟩⟩ : UDim2) + (-⟨⟨1 / 2, 10⟩, ⟨-1 / 4, -5⟩⟩) = udim2Zero) :=
  ⟨by decide, c9_additive_identity ⟨⟨1 / 2, 10⟩, ⟨-1 / 4, -5⟩⟩ (by decide)⟩

/-! ## Claim C10: the named factories -/

/-- C10: `fromScale` sets the scales from its up-to-two optional arguments
(missing arguments default to 0) and both offsets to exactly 0; `fromOffset`
sets the offsets likewise and both scales to exactly 0. -/
theorem c10_named_factories (x y : Option ℚ) (ox oy : Option ℤ) :
    (udim2_fromScale x y).x.scale = x.getD 0 ∧
    (udim2_fromScale x y).y.scale = y.getD 0 ∧
    (udim2_fromScale x y).x.offset = 0 ∧
    (udim2_fromScale x y).y.offset = 0 ∧
    (udim2_fromOffset ox oy).x.offset = ox.getD 0 ∧
    (udim2_fromOffset ox oy).y.offset = oy.getD 0 ∧
    (udim2_fromOffset ox oy).x.scale = 0 ∧
    (udim2_fromOffset ox oy).y.scale = 0 :=
  ⟨rfl, rfl, rfl, rfl, rfl, rfl, rfl, rfl⟩

end Lune
